import Mathlib

/-!
Verification of the RWAX oracle data pipeline (`services/oracle/clean_data.py`).

Shallow embedding of the anchor-based parser (`smart_parse_row`), the
connectivity scorer (`calculate_connectivity_score`), the compliance/risk
engine (`check_compliance_and_risk`) and the batch loop (`main`).

Modelling conventions:
* Python strings are modelled as `List Char`; only ASCII-relevant behaviour of
  `str.isdigit`, `str.lower`, `str.upper` and `str.strip` is exercised by the
  data, and it is modelled with `Char.isDigit` / `Char.toLower` /
  `Char.toUpper` / whitespace trimming.
* Python `float` arithmetic is modelled exactly over `ℚ`; `round(x, 1)` is
  modelled as rounding `10 * x` to the nearest integer (the inputs relevant to
  the claims are never half-way ties, where binary floats would differ).
* A raised Python exception is modelled as `Except.error` with the exception
  name; `return None` is `Except.ok none`.
* The specific regular expressions of the source are implemented directly as
  leftmost-search functions with Python's alternation order and greedy /
  lazy quantifier semantics for exactly the patterns that occur.
-/

/-- Python whitespace characters relevant to `str.strip`. -/
def isSpaceCh (c : Char) : Bool :=
  c = ' ' || c = '\t' || c = '\n' || c = '\r' || c = '\x0b' || c = '\x0c'

/-- Python `str.strip()` on a character list. -/
def pyStrip (cs : List Char) : List Char :=
  ((cs.dropWhile isSpaceCh).reverse.dropWhile isSpaceCh).reverse

/-- Character list of a string literal. -/
def strL (s : String) : List Char := s.data

/-- Does `cs` start with `pat` (case-sensitive)? -/
def startsL (pat cs : List Char) : Bool := cs.take pat.length == pat

/-- Does `cs` start with `pat` (case-insensitive; `pat` given lowercase)?
Models `re.IGNORECASE` literal matching. -/
def startsCI (pat cs : List Char) : Bool := (cs.take pat.length).map Char.toLower == pat

/-- Does `cs` end with `pat`?  Models Python `str.endswith`. -/
def endsL (pat cs : List Char) : Bool := startsL pat.reverse cs.reverse

/-- Python substring containment (`pat in cs`, case-sensitive). -/
def containsL (pat : List Char) : List Char → Bool
  | [] => pat == []
  | c :: cs => startsL pat (c :: cs) || containsL pat cs

/-- Numeric value of a digit string. -/
def digitsToNat (ds : List Char) : Nat :=
  ds.foldl (fun a c => a * 10 + (c.toNat - 48)) 0

/-- Split a float token at its (first) decimal point. -/
def splitAtDot : List Char → List Char × List Char
  | [] => ([], [])
  | '.' :: cs => ([], cs)
  | c :: cs => let p := splitAtDot cs; (c :: p.1, p.2)

/-- Exact value of a Python float literal such as "530.0", "7.7", "1998" or
"530." (models `float(...)` on tokens produced by the source's regexes). -/
def tokToRat (t : List Char) : ℚ :=
  let p := splitAtDot t
  (digitsToNat p.1 : ℚ) + (digitsToNat p.2 : ℚ) / (10 : ℚ) ^ p.2.length

/-- Maximal digit prefix and the rest. -/
def takeDigits : List Char → List Char × List Char
  | [] => ([], [])
  | c :: cs =>
    if c.isDigit then
      let p := takeDigits cs
      (c :: p.1, p.2)
    else ([], c :: cs)

/-! ## The yield anchor: `re.search(r"(\d{1,2}\.\d{1,2})%", text)` -/

/-- Try to match `\d{k1}\.\d{k2}%` at the head of `cs`; returns the captured
group and the total length consumed. -/
def yieldTry (k1 k2 : Nat) (cs : List Char) : Option (List Char × Nat) :=
  let d1 := cs.take k1
  if d1.length == k1 && d1.all Char.isDigit then
    match cs.drop k1 with
    | '.' :: rest =>
      let d2 := rest.take k2
      if d2.length == k2 && d2.all Char.isDigit then
        match rest.drop k2 with
        | '%' :: _ => some (d1 ++ '.' :: d2, k1 + 1 + k2 + 1)
        | _ => none
      else none
    | _ => none
  else none

/-- Match `(\d{1,2}\.\d{1,2})%` at the head of `cs`, with Python's greedy
backtracking order for the two counted quantifiers. -/
def matchYieldHere (cs : List Char) : Option (List Char × Nat) :=
  yieldTry 2 2 cs <|> yieldTry 2 1 cs <|> yieldTry 1 2 cs <|> yieldTry 1 1 cs

/-- Leftmost search for the yield anchor; returns (start, end, group 1). -/
def searchYield : List Char → Nat → Option (Nat × Nat × List Char)
  | [], _ => none
  | c :: cs, i =>
    match matchYieldHere (c :: cs) with
    | some p => some (i, i + p.2, p.1)
    | none => searchYield cs (i + 1)

/-! ## The area range: `re.search(r"(\d{3,5}-\d{3,5}|>3000|<1000)", left_side)` -/

/-- Try to match `\d{k1}-\d{k2}` at the head of `cs`; returns length consumed. -/
def rangeTry (k1 k2 : Nat) (cs : List Char) : Option Nat :=
  let d1 := cs.take k1
  if d1.length == k1 && d1.all Char.isDigit then
    match cs.drop k1 with
    | '-' :: rest =>
      let d2 := rest.take k2
      if d2.length == k2 && d2.all Char.isDigit then some (k1 + 1 + k2) else none
    | _ => none
  else none

/-- Match the area-range alternation at the head of `cs`, with Python's
alternation order and greedy counted quantifiers (5 digits preferred). -/
def matchAreaHere (cs : List Char) : Option Nat :=
  rangeTry 5 5 cs <|> rangeTry 5 4 cs <|> rangeTry 5 3 cs <|>
  rangeTry 4 5 cs <|> rangeTry 4 4 cs <|> rangeTry 4 3 cs <|>
  rangeTry 3 5 cs <|> rangeTry 3 4 cs <|> rangeTry 3 3 cs <|>
  (if startsL (strL ">3000") cs then some 5 else none) <|>
  (if startsL (strL "<1000") cs then some 5 else none)

/-- Leftmost search for the area range; returns (start, end). -/
def searchArea : List Char → Nat → Option (Nat × Nat)
  | [], _ => none
  | c :: cs, i =>
    match matchAreaHere (c :: cs) with
    | some len => some (i, i + len)
    | none => searchArea cs (i + 1)

/-- Model of `re.match(r"^(\d{1,2})", remaining_left)`: up to two leading digits. -/
def matchDistrict : List Char → Option (List Char)
  | [] => none
  | [c] => if c.isDigit then some [c] else none
  | c :: d :: _ =>
    if c.isDigit then (if d.isDigit then some [c, d] else some [c]) else none

/-! ## The tenure anchor

The source searches `re.search(r"(Freehold|999 yrs.*?|99 yrs.*?)(\d{4})?$", right_side, re.IGNORECASE)` on the location segment.

A successful match always extends to the end of the string: after group 1 the
only remaining pattern is an optional 4-digit year and `$`.  The `Freehold`
alternative has no `.*?`, so it matches only when followed directly by an
optional 4-digit year at the very end; the `999 yrs` / `99 yrs` alternatives
carry a lazy `.*?` which can absorb anything up to the end. -/

/-- The trailing pattern `(\d{4})?$` applied to the remainder `cs`. -/
def tailOK (cs : List Char) : Bool :=
  cs.isEmpty || (cs.length == 4 && cs.all Char.isDigit)

/-- Can the tenure pattern match starting exactly at the head of `cs`? -/
def matchTenureHere (cs : List Char) : Bool :=
  (startsCI (strL "freehold") cs && tailOK (cs.drop 8)) ||
  startsCI (strL "999 yrs") cs || startsCI (strL "99 yrs") cs

/-- Leftmost search for the tenure match; returns its start index. -/
def searchTenure : List Char → Nat → Option Nat
  | [], _ => none
  | c :: cs, i => if matchTenureHere (c :: cs) then some i else searchTenure cs (i + 1)

/-- Model of `re.search(r"from (\d{4})", tenure_raw)`: the 4-digit group of the first
occurrence of "from " followed by at least four digits. -/
def searchFromYear : List Char → Option (List Char)
  | [] => none
  | c :: cs =>
    let s := c :: cs
    let ds := (s.drop 5).take 4
    if startsL (strL "from ") s && ds.length == 4 && ds.all Char.isDigit
    then some ds
    else searchFromYear cs

/-! ## The distance numbers: `re.findall(r"(\d+\.?\d*)", loc_text)` -/

/-- All float-like tokens, scanned left to right (fuel = remaining length). -/
def findFloatsAux : Nat → List Char → List (List Char)
  | 0, _ => []
  | _ + 1, [] => []
  | fuel + 1, c :: cs =>
    if c.isDigit then
      let p := takeDigits (c :: cs)
      match p.2 with
      | '.' :: r2 =>
        let q := takeDigits r2
        (p.1 ++ '.' :: q.1) :: findFloatsAux fuel q.2
      | _ => p.1 :: findFloatsAux fuel p.2
    else findFloatsAux fuel cs

/-- Model of `re.findall(r"(\d+\.?\d*)", cs)`. -/
def findFloats (cs : List Char) : List (List Char) := findFloatsAux cs.length cs

/-! ## Configuration constants (lines 8-16 of the source) -/

def CURRENT_YEAR : Int := 2026
def MIN_EC_AGE : Int := 10
def WEIGHT_MRT : ℚ := 6 / 10
def WEIGHT_CBD : ℚ := 4 / 10

/-- Python `round(x, 1)`: round to one decimal place. -/
def round1 (x : ℚ) : ℚ := ((round (10 * x) : ℤ) : ℚ) / 10

/-- The scorer `calculate_connectivity_score(mrt_m, cbd_km)` (lines 18-36): 0 when either
distance is `None`, otherwise the clamped, rounded weighted deduction from 100.
The `try/except` of the source is unreachable for rational inputs and is not
modelled as a separate outcome. -/
def calculate_connectivity_score (mrt_m cbd_km : Option ℚ) : ℚ :=
  match mrt_m, cbd_km with
  | some m, some k =>
    let mrt_penalty := max 0 ((m - 200) / 50)
    let cbd_penalty := max 0 (k * 2)
    let score := 100 - mrt_penalty * WEIGHT_MRT - cbd_penalty * WEIGHT_CBD
    round1 (max 0 (min 100 score))
  | _, _ => 0

/-! ## Parsed row data (the dict built by `smart_parse_row`)

A field typed `Option _` models a dict key that is only conditionally
assigned (`none` = key absent, for `bedrooms`, `district`, `tenure_raw`,
`commence_year`) or assigned the Python value `None` (for the two distances,
whose keys are always assigned). -/

structure ParsedData where
  yield_apy : ℚ
  project_name : String
  bedrooms : Option String
  area_sqft_range : String
  district : Option String
  tenure_raw : Option String
  tenure_type : String
  commence_year : Option Int
  mrt_dist_m : Option ℚ
  cbd_dist_km : Option ℚ
  connectivity_score : ℚ
  data_hash : String
deriving Repr, DecidableEq

/-- Stand-in for `hashlib.sha256(row.encode()).hexdigest()`: modelled as an
injective pure function of the raw row.  No claim inspects digest values;
only purity and the fixed truncation to 12 characters are used. -/
def sha256_hexdigest (row : String) : String := row

/-- District value assigned when the area range matched (line 94):
the leading 1-2 digits of the remaining left text, else "Unknown". -/
def districtOf (cs : List Char) : String :=
  match matchDistrict cs with
  | some d => String.mk d
  | none => "Unknown"

/-- Fields extracted from the identity (left) segment, lines 71-99.
`Except.error` models the `IndexError` raised by `raw_name_part[-1]` when the
area token sits at the very start of the segment. -/
structure LeftFields where
  project_name : String
  bedrooms : Option String
  area_sqft_range : String
  district : Option String
deriving Repr, DecidableEq

def parseLeft (left : List Char) : Except String LeftFields :=
  match searchArea left 0 with
  | none =>
    .ok { project_name := String.mk (left.take 20) ++ "..."
          bedrooms := none
          area_sqft_range := "Unknown"
          district := none }
  | some ab =>
    let area := String.mk ((left.take ab.2).drop ab.1)
    let rawName := left.take ab.1
    let dist := some (districtOf (left.drop ab.2))
    if endsL (strL "n.a.") rawName then
      .ok { project_name := String.mk (pyStrip (rawName.take (rawName.length - 4)))
            bedrooms := some "N/A"
            area_sqft_range := area
            district := dist }
    else
      match rawName.getLast? with
      | none => .error "IndexError: string index out of range"
      | some c =>
        if c.isDigit then
          .ok { project_name := String.mk (pyStrip rawName.dropLast)
                bedrooms := some (String.mk [c])
                area_sqft_range := area
                district := dist }
        else
          .ok { project_name := String.mk (pyStrip rawName)
                bedrooms := some "?"
                area_sqft_range := area
                district := dist }

/-- Fields extracted from the location (right) segment, lines 107-119. -/
structure TenureFields where
  tenure_type : String
  tenure_raw : Option String
  commence_year : Option Int
  loc_text : List Char
deriving Repr, DecidableEq

def parseTenure (right : List Char) : TenureFields :=
  match searchTenure right 0 with
  | none =>
    { tenure_type := "Unknown", tenure_raw := none, commence_year := none
      loc_text := right }
  | some i =>
    let raw := pyStrip (right.drop i)
    let ttype :=
      if containsL (strL "Freehold") raw || containsL (strL "999") raw
      then "Freehold/999yr" else "Leasehold"
    let cy : Int :=
      match searchFromYear raw with
      | some ds => Int.ofNat (digitsToNat ds)
      | none => 0
    { tenure_type := ttype, tenure_raw := some (String.mk raw)
      commence_year := some cy, loc_text := right.take i }

/-- MRT and CBD distances (lines 124-137): the last two float tokens of the
remaining location text, `(mrt, cbd) = (floats[-2], floats[-1])`. -/
def parseDists (loc : List Char) : Option ℚ × Option ℚ :=
  match (findFloats loc).reverse with
  | last :: prev :: _ => (some (tokToRat prev), some (tokToRat last))
  | _ => (none, none)

/-- The parser `smart_parse_row(row)` (lines 38-145). `ok none` models `return None`
(no yield anchor); `error` models a raised exception. -/
def smart_parse_row (row : String) : Except String (Option ParsedData) :=
  let text := pyStrip row.data
  match searchYield text 0 with
  | none => .ok none
  | some se =>
    match parseLeft (text.take se.1) with
    | .error msg => .error msg
    | .ok lf =>
      let tf := parseTenure (text.drop se.2.1)
      let dists := parseDists tf.loc_text
      .ok (some
        { yield_apy := tokToRat se.2.2
          project_name := lf.project_name
          bedrooms := lf.bedrooms
          area_sqft_range := lf.area_sqft_range
          district := lf.district
          tenure_raw := tf.tenure_raw
          tenure_type := tf.tenure_type
          commence_year := tf.commence_year
          mrt_dist_m := dists.1
          cbd_dist_km := dists.2
          connectivity_score := calculate_connectivity_score dists.1 dists.2
          data_hash := sha256_hexdigest row })

/-! ## Compliance and risk (`check_compliance_and_risk`, lines 147-192) -/

structure Verdict where
  status : String
  reason : String
  risk_tier : String
  score : Int
deriving Repr, DecidableEq

/-- The legal gate (lines 151-169).  `error` models the `KeyError` that
`asset['commence_year']` would raise when the key is absent. -/
def compliance_status (asset : ParsedData) : Except String (String × String) :=
  if asset.tenure_type = "Freehold/999yr" then
    .ok ("APPROVED", "Unrestricted (Freehold)")
  else if asset.tenure_type = "Leasehold" then
    match asset.commence_year with
    | none => .error "KeyError: commence_year"
    | some cy =>
      if 0 < cy then
        let age := CURRENT_YEAR - cy
        if MIN_EC_AGE ≤ age then
          .ok ("APPROVED", "Safe Leasehold (" ++ toString age ++ " yrs old)")
        else
          .ok ("REJECTED", "Restricted/New EC (" ++ toString age ++ " yrs old)")
      else .ok ("FLAGGED", "Unknown Lease Year")
  else .ok ("REJECTED", "Unknown")

/-- Risk scoring (lines 172-180): base 10 with the three deductions. -/
def risk_score (asset : ParsedData) : Int :=
  let r1 : Int := 10
  let r2 := if asset.tenure_type = "Leasehold" then r1 - 2 else r1
  let r3 := if asset.connectivity_score < 50 then r2 - 2 else r2
  if asset.yield_apy < 2 then r3 - 1 else r3

/-- Tier mapping (lines 183-185): "A" overwritten by "B" when ≤ 7, then by
"C" when ≤ 5 (the later, stricter threshold wins). -/
def risk_tier (s : Int) : String :=
  let t1 := "A (Low Risk)"
  let t2 := if s ≤ 7 then "B (Medium Risk)" else t1
  if s ≤ 5 then "C (High Risk)" else t2

def check_compliance_and_risk (asset : ParsedData) : Except String Verdict :=
  match compliance_status asset with
  | .error e => .error e
  | .ok sr =>
    .ok { status := sr.1, reason := sr.2
          risk_tier := risk_tier (risk_score asset)
          score := risk_score asset }

/-! ## The final oracle payload and the batch loop (`main`, lines 194-254) -/

structure FinalRecord where
  id : String
  project : String
  type : String
  district : String
  yield_apy : ℚ
  est_valuation_sgd : String
  pt_ticker : String
  yt_ticker : String
  connectivity_score : ℚ
  risk_rating : String
  compliance_note : String
  mrt_distance : String
  source : String
  data_hash : String
deriving Repr, DecidableEq

/-- Python `int(q)` on a float: truncation toward zero. -/
def intTrunc (q : ℚ) : Int := if 0 ≤ q then ⌊q⌋ else ⌈q⌉

/-- The ticker base `parsed['project_name'][:3].upper()`. -/
def tickerBase (name : String) : String :=
  String.mk ((name.data.take 3).map Char.toUpper)

/-- The `asset_record` dict literal of `main` (lines 220-245).  `error` models
the `TypeError` raised by `int(parsed.get('mrt_dist_m', 0))` when the key is
present but holds `None` (the `.get` default never applies: the key is always
assigned by `smart_parse_row`). -/
def assemble (parsed : ParsedData) (compliance : Verdict) : Except String FinalRecord :=
  match parsed.mrt_dist_m with
  | none => .error "TypeError: int() argument cannot be NoneType"
  | some m =>
    .ok { id := String.mk (parsed.data_hash.data.take 12)
          project := parsed.project_name
          type := (parsed.bedrooms.getD "?") ++ "-Bed | " ++ parsed.area_sqft_range ++ " sqft"
          district := "D" ++ (parsed.district.getD "?")
          yield_apy := parsed.yield_apy
          est_valuation_sgd := "Dynamic (AMM)"
          pt_ticker := "PT-" ++ tickerBase parsed.project_name
          yt_ticker := "YT-" ++ tickerBase parsed.project_name ++ "-28"
          connectivity_score := parsed.connectivity_score
          risk_rating := compliance.risk_tier
          compliance_note := compliance.reason
          mrt_distance := toString (intTrunc m) ++ "m"
          source := "URA_API_2026"
          data_hash := parsed.data_hash }

/-- The batch loop of `main` (lines 209-246), over the list of raw lines:
lines shorter than 10 characters are skipped, unparseable lines are skipped,
an approved parsed line appends its assembled record, and any raised
exception aborts the whole batch (modelled as `error`; the output file is
only written after the loop, so an aborted batch emits nothing). -/
def main : List String → Except String (List FinalRecord)
  | [] => .ok []
  | row :: rest =>
    if row.length < 10 then main rest
    else
      match smart_parse_row row with
      | .error e => .error e
      | .ok none => main rest
      | .ok (some parsed) =>
        match check_compliance_and_risk parsed with
        | .error e => .error e
        | .ok compliance =>
          if compliance.status = "APPROVED" then
            match assemble parsed compliance with
            | .error e => .error e
            | .ok r =>
              match main rest with
              | .error e => .error e
              | .ok rs => .ok (r :: rs)
          else main rest

/-! ## Structural invariants of the parser -/

/-- In the area-match branch `parseLeft` always assigns both `bedrooms` and
`district`; in the fallback branch it assigns neither and marks the area
"Unknown". -/
lemma parseLeft_fields (l : List Char) (lf : LeftFields) (h : parseLeft l = .ok lf) :
    (lf.bedrooms.isSome ↔ lf.district.isSome) ∧
    (lf.bedrooms = none → lf.area_sqft_range = "Unknown") := by
  simp only [parseLeft] at h
  split at h
  · simp only [Except.ok.injEq] at h
    subst h
    simp
  · split at h
    · simp only [Except.ok.injEq] at h
      subst h
      simp
    · split at h
      · simp at h
      · split at h <;> (simp only [Except.ok.injEq] at h; subst h; simp)

/-- The function `parseTenure` assigns `tenure_raw` and `commence_year` exactly when a
tenure token is found, in which case the tenure type is never "Unknown". -/
lemma parseTenure_fields (r : List Char) :
    ((parseTenure r).tenure_raw.isSome ↔ (parseTenure r).commence_year.isSome) ∧
    ((parseTenure r).tenure_type = "Unknown" ↔ (parseTenure r).commence_year = none) := by
  rcases hs : searchTenure r 0 with _ | i <;> simp only [parseTenure, hs]
  · simp
  · refine ⟨by simp, ?_, by simp⟩
    intro hU
    split at hU <;> simp_all

/-- Every record returned by `smart_parse_row` satisfies the joint-presence
invariants of its conditionally-assigned fields. -/
lemma parse_invariants (s : String) (rec : ParsedData)
    (h : smart_parse_row s = .ok (some rec)) :
    (rec.bedrooms.isSome ↔ rec.district.isSome) ∧
    (rec.bedrooms = none → rec.area_sqft_range = "Unknown") ∧
    (rec.tenure_raw.isSome ↔ rec.commence_year.isSome) ∧
    (rec.tenure_type = "Unknown" ↔ rec.commence_year = none) ∧
    (rec.tenure_type = "Leasehold" → rec.commence_year.isSome) := by
  rcases hy : searchYield (pyStrip s.data) 0 with _ | se <;>
    simp only [smart_parse_row, hy] at h
  · simp at h
  · rcases hl : parseLeft ((pyStrip s.data).take se.1) with msg | lf <;>
      simp only [hl] at h
    · simp at h
    · simp only [Except.ok.injEq, Option.some.injEq] at h
      subst h
      refine ⟨(parseLeft_fields _ _ hl).1, (parseLeft_fields _ _ hl).2,
        (parseTenure_fields _).1, (parseTenure_fields _).2, ?_⟩
      intro hL
      have hL' : (parseTenure ((pyStrip s.data).drop se.2.1)).tenure_type = "Leasehold" := hL
      have hiff := (parseTenure_fields ((pyStrip s.data).drop se.2.1)).2
      rw [hL'] at hiff
      show ((parseTenure ((pyStrip s.data).drop se.2.1)).commence_year).isSome = true
      rcases hcy : (parseTenure ((pyStrip s.data).drop se.2.1)).commence_year with _ | y
      · exact absurd (hiff.mpr hcy) (by decide)
      · rfl

/-- The compliance gate only reads `commence_year` in the Leasehold branch. -/
lemma compliance_status_ok (a : ParsedData)
    (h : a.tenure_type = "Leasehold" → a.commence_year.isSome) :
    ∃ sr, compliance_status a = .ok sr := by
  by_cases h1 : a.tenure_type = "Freehold/999yr"
  · exact ⟨("APPROVED", "Unrestricted (Freehold)"), by simp [compliance_status, h1]⟩
  · by_cases h2 : a.tenure_type = "Leasehold"
    · have hs := h h2
      rcases ho : a.commence_year with _ | y
      · rw [ho] at hs
        simp at hs
      · by_cases h3 : (0 : Int) < y
        · by_cases h4 : MIN_EC_AGE ≤ CURRENT_YEAR - y
          · exact ⟨("APPROVED", "Safe Leasehold (" ++ toString (CURRENT_YEAR - y) ++ " yrs old)"),
              by simp [compliance_status, h1, h2, ho, h3, h4]⟩
          · exact ⟨("REJECTED", "Restricted/New EC (" ++ toString (CURRENT_YEAR - y) ++ " yrs old)"),
              by simp [compliance_status, h1, h2, ho, h3, h4]⟩
        · exact ⟨("FLAGGED", "Unknown Lease Year"), by simp [compliance_status, h1, h2, ho, h3]⟩
    · exact ⟨("REJECTED", "Unknown"), by simp [compliance_status, h1, h2]⟩

lemma check_ok_of (a : ParsedData)
    (h : a.tenure_type = "Leasehold" → a.commence_year.isSome) :
    ∃ v, check_compliance_and_risk a = .ok v := by
  obtain ⟨sr, hsr⟩ := compliance_status_ok a h
  exact ⟨{ status := sr.1, reason := sr.2, risk_tier := risk_tier (risk_score a),
           score := risk_score a },
    by simp [check_compliance_and_risk, hsr]⟩

/-! ## Arithmetic lemmas about one-decimal rounding -/

lemma round1_mono (x y : ℚ) (h : x ≤ y) : round1 x ≤ round1 y := by
  unfold round1
  have h2 : round (10 * x) ≤ round (10 * y) := by
    rw [round_eq, round_eq]
    exact Int.floor_le_floor (by linarith)
  have h3 : ((round (10 * x) : ℤ) : ℚ) ≤ ((round (10 * y) : ℤ) : ℚ) :=
    Int.cast_le.mpr h2
  linarith

lemma round1_bounds (x : ℚ) (h0 : 0 ≤ x) (h1 : x ≤ 100) :
    0 ≤ round1 x ∧ round1 x ≤ 100 := by
  unfold round1
  constructor
  · have hz : (0 : ℤ) ≤ round (10 * x) := by
      rw [round_eq]
      exact Int.le_floor.mpr (by push_cast; linarith)
    have : (0 : ℚ) ≤ ((round (10 * x) : ℤ) : ℚ) := by exact_mod_cast hz
    linarith
  · have hz : round (10 * x) ≤ 1000 := by
      rw [round_eq]
      have hlt : (⌊10 * x + 1 / 2⌋ : ℤ) < 1001 :=
        Int.floor_lt.mpr (by push_cast; linarith)
      omega
    have : ((round (10 * x) : ℤ) : ℚ) ≤ 1000 := by exact_mod_cast hz
    linarith

/-! ## Concrete scenario inputs and their parses -/

/-- A line whose identity segment consists of exactly the area-range token:
`raw_name_part` is empty, so `raw_name_part[-1]` raises. -/
def lineC2 : String := "1000-1500 1.97% 530.0 7.7"

/-- The spec's end-to-end scenario line: a project name, the area token
"1000-1500" immediately followed by the district token "05", the yield anchor
"1.97%", and a location segment ending in "Freehold from 1998". -/
def lineC1 : String := "Skyvue 3 1000-150005 1.97% 530.0 7.7 Freehold from 1998"

/-- What the pipeline actually extracts from `lineC1`: the greedy area regex
absorbs the district's leading zero ("1000-15000", district "5"), and the
tenure regex cannot match "Freehold from 1998" (after "Freehold" only an
optional 4-digit year may close the segment), leaving tenure "Unknown". -/
def recC1 : ParsedData :=
  { yield_apy := 197 / 100
    project_name := "Skyvue 3"
    bedrooms := some "?"
    area_sqft_range := "1000-15000"
    district := some "5"
    tenure_raw := none
    tenure_type := "Unknown"
    commence_year := none
    mrt_dist_m := some (77 / 10)
    cbd_dist_km := some 1998
    connectivity_score := 0
    data_hash := lineC1 }

/-- The verdict on `recC1`. -/
def vC1 : Verdict :=
  { status := "REJECTED", reason := "Unknown"
    risk_tier := "B (Medium Risk)", score := 7 }

/-- C2: `smart_parse_row` raises `IndexError` (does not degrade to a
fallback) when the area-range token is found at the very start of the
identity segment, contradicting the never-throws contract. -/
theorem C2_empty_name_raises :
    smart_parse_row lineC2 = .error "IndexError: string index out of range" := by
  rfl

/-- C1 (counterexample): on a line of the claimed end-to-end shape, the
pipeline does not produce the claimed field values or an output record. -/
theorem C1_scenario_counterexample :
    smart_parse_row lineC1 = .ok (some recC1) ∧
    recC1.area_sqft_range ≠ "1000-1500" ∧
    recC1.district ≠ some "05" ∧
    recC1.tenure_type ≠ "Freehold/999yr" ∧
    recC1.commence_year ≠ some 1998 ∧
    check_compliance_and_risk recC1 = .ok vC1 ∧
    vC1.status ≠ "APPROVED" ∧
    main [lineC1] = .ok [] := by
  refine ⟨by with_unfolding_all rfl, by decide, by decide, by decide, by decide,
    by with_unfolding_all rfl, by decide, by with_unfolding_all rfl⟩

/-- C1 (amended): on the scenario line the parse yields area "1000-15000"
(the greedy range regex absorbs the district's leading digit), district "5",
yield 1.97, tenure "Unknown" (the tenure regex cannot match
"Freehold from 1998"), the verdict is REJECTED, and no record is emitted. -/
theorem C1_scenario_amended :
    smart_parse_row lineC1 = .ok (some recC1) ∧
    recC1.yield_apy = 197 / 100 ∧
    recC1.area_sqft_range = "1000-15000" ∧
    recC1.district = some "5" ∧
    recC1.tenure_type = "Unknown" ∧
    check_compliance_and_risk recC1 = .ok vC1 ∧
    vC1.status = "REJECTED" ∧
    main [lineC1] = .ok [] := by
  refine ⟨by with_unfolding_all rfl, by rfl, by rfl, by rfl, by rfl,
    by with_unfolding_all rfl, by rfl, by with_unfolding_all rfl⟩

/-- A line with a yield anchor but no area-range token and no tenure token:
both degradation paths at once. -/
def lineC6 : String := "Condo Alpha 1.97% near park"

/-- Its parse: `bedrooms`, `district`, `tenure_raw` and `commence_year` are
never assigned (the keys are absent from the returned dict). -/
def recC6 : ParsedData :=
  { yield_apy := 197 / 100
    project_name := "Condo Alpha ..."
    bedrooms := none
    area_sqft_range := "Unknown"
    district := none
    tenure_raw := none
    tenure_type := "Unknown"
    commence_year := none
    mrt_dist_m := none
    cbd_dist_km := none
    connectivity_score := 0
    data_hash := lineC6 }

/-- C6 (counterexample): on the degradation paths the returned mapping does
not carry every documented field — bedrooms, district and the commencement
year are absent, not fallback-tagged. -/
theorem C6_missing_fields_counterexample :
    smart_parse_row lineC6 = .ok (some recC6) ∧
    recC6.bedrooms = none ∧ recC6.district = none ∧
    recC6.tenure_raw = none ∧ recC6.commence_year = none := by
  refine ⟨by with_unfolding_all rfl, rfl, rfl, rfl, rfl⟩

/-- C6 (amended): the unconditionally assigned fields aside, `bedrooms` and
`district` are assigned exactly together (and their absence forces the area
fallback "Unknown"), and `tenure_raw` and `commence_year` are assigned
exactly together (exactly when the tenure type is not "Unknown"). -/
theorem C6_field_presence_amended (s : String) (rec : ParsedData)
    (h : smart_parse_row s = .ok (some rec)) :
    (rec.bedrooms.isSome ↔ rec.district.isSome) ∧
    (rec.bedrooms = none → rec.area_sqft_range = "Unknown") ∧
    (rec.tenure_raw.isSome ↔ rec.commence_year.isSome) ∧
    (rec.tenure_type = "Unknown" ↔ rec.commence_year = none) :=
  ⟨(parse_invariants s rec h).1, (parse_invariants s rec h).2.1,
   (parse_invariants s rec h).2.2.1, (parse_invariants s rec h).2.2.2.1⟩

theorem C6_field_presence_amended_witness :
    (recC6.bedrooms.isSome ↔ recC6.district.isSome) ∧
    (recC6.bedrooms = none → recC6.area_sqft_range = "Unknown") ∧
    (recC6.tenure_raw.isSome ↔ recC6.commence_year.isSome) ∧
    (recC6.tenure_type = "Unknown" ↔ recC6.commence_year = none) :=
  C6_field_presence_amended lineC6 recC6 (by with_unfolding_all rfl)

/-- A line that parses, is APPROVED (Freehold), but has no distance tokens:
`mrt_dist_m` is `None`. -/
def lineC7 : String := "Blossom 2 1000-1500 05 1.97% Freehold"

def recC7 : ParsedData :=
  { yield_apy := 197 / 100
    project_name := "Blossom 2"
    bedrooms := some "?"
    area_sqft_range := "1000-1500"
    district := some "Unknown"
    tenure_raw := some "Freehold"
    tenure_type := "Freehold/999yr"
    commence_year := some 0
    mrt_dist_m := none
    cbd_dist_km := none
    connectivity_score := 0
    data_hash := lineC7 }

def vC7 : Verdict :=
  { status := "APPROVED", reason := "Unrestricted (Freehold)"
    risk_tier := "B (Medium Risk)", score := 7 }

/-- C7: a parsed line with an APPROVED verdict that produces no output
record — `int(None)` raises while assembling it and the batch aborts, so the
emitted collection is not "exactly one record per APPROVED line". -/
theorem C7_approved_line_lost :
    smart_parse_row lineC7 = .ok (some recC7) ∧
    check_compliance_and_risk recC7 = .ok vC7 ∧
    vC7.status = "APPROVED" ∧
    main [lineC7] = .error "TypeError: int() argument cannot be NoneType" := by
  refine ⟨by with_unfolding_all rfl, by with_unfolding_all rfl, rfl,
    by with_unfolding_all rfl⟩

/-- Another APPROVED line with unknown MRT distance, for the assembler. -/
def lineC8 : String := "Aqua 2000-2500 10 2.52% Freehold"

def recC8 : ParsedData :=
  { yield_apy := 63 / 25
    project_name := "Aqua"
    bedrooms := some "?"
    area_sqft_range := "2000-2500"
    district := some "Unknown"
    tenure_raw := some "Freehold"
    tenure_type := "Freehold/999yr"
    commence_year := some 0
    mrt_dist_m := none
    cbd_dist_km := none
    connectivity_score := 0
    data_hash := lineC8 }

def vC8 : Verdict :=
  { status := "APPROVED", reason := "Unrestricted (Freehold)"
    risk_tier := "A (Low Risk)", score := 8 }

/-- C8: assembling an APPROVED record with unknown MRT distance raises
(`int` of `None`), so line content alone can abort the batch run. -/
theorem C8_assemble_raises :
    smart_parse_row lineC8 = .ok (some recC8) ∧
    check_compliance_and_risk recC8 = .ok vC8 ∧
    vC8.status = "APPROVED" ∧
    recC8.mrt_dist_m = none ∧
    assemble recC8 vC8 = .error "TypeError: int() argument cannot be NoneType" ∧
    main [lineC8] = .error "TypeError: int() argument cannot be NoneType" := by
  refine ⟨by with_unfolding_all rfl, by with_unfolding_all rfl, rfl, rfl, rfl,
    by with_unfolding_all rfl⟩

/-- C10: no record produced by the parser can make the compliance engine
fail on the conditionally-assigned commencement-year key. -/
theorem C10_check_never_missing_key (s : String) (rec : ParsedData)
    (h : smart_parse_row s = .ok (some rec)) :
    ∃ v, check_compliance_and_risk rec = .ok v :=
  check_ok_of rec (parse_invariants s rec h).2.2.2.2

theorem C10_check_never_missing_key_witness :
    ∃ v, check_compliance_and_risk recC7 = .ok v :=
  C10_check_never_missing_key lineC7 recC7 (by with_unfolding_all rfl)

/-! ## Claims about the compliance engine -/

/-- The status field of a compliance run, when it did not raise. -/
def verdict_status (e : Except String Verdict) : Option String :=
  match e with
  | .ok v => some v.status
  | .error _ => none

/-- C3: the four-branch compliance decision table, with the inclusive age
threshold at `CURRENT_YEAR − 10`. -/
theorem C3_compliance_decision_table (a : ParsedData) (y : Int) :
    (CURRENT_YEAR = 2026 ∧ MIN_EC_AGE = 10) ∧
    (a.tenure_type = "Freehold/999yr" →
      verdict_status (check_compliance_and_risk a) = some "APPROVED") ∧
    (a.tenure_type = "Leasehold" → a.commence_year = some y → 0 < y →
      verdict_status (check_compliance_and_risk a) =
        some (if MIN_EC_AGE ≤ CURRENT_YEAR - y then "APPROVED" else "REJECTED")) ∧
    (a.tenure_type = "Leasehold" → a.commence_year = some (CURRENT_YEAR - 10) →
      verdict_status (check_compliance_and_risk a) = some "APPROVED") ∧
    (a.tenure_type = "Leasehold" → a.commence_year = some (CURRENT_YEAR - 9) →
      verdict_status (check_compliance_and_risk a) = some "REJECTED") ∧
    (a.tenure_type = "Leasehold" → a.commence_year = some 0 →
      verdict_status (check_compliance_and_risk a) = some "FLAGGED") ∧
    (a.tenure_type = "Unknown" →
      verdict_status (check_compliance_and_risk a) = some "REJECTED") := by
  refine ⟨⟨rfl, rfl⟩, ?_, ?_, ?_, ?_, ?_, ?_⟩
  · intro h1
    simp [verdict_status, check_compliance_and_risk, compliance_status, h1]
  · intro h1 h2 h3
    by_cases h4 : MIN_EC_AGE ≤ CURRENT_YEAR - y
    · rw [if_pos h4]
      simp [verdict_status, check_compliance_and_risk, compliance_status, h1, h2, h3, h4]
    · rw [if_neg h4]
      simp [verdict_status, check_compliance_and_risk, compliance_status, h1, h2, h3, h4]
  · intro h1 h2
    simp [verdict_status, check_compliance_and_risk, compliance_status, h1, h2,
      CURRENT_YEAR, MIN_EC_AGE]
  · intro h1 h2
    simp [verdict_status, check_compliance_and_risk, compliance_status, h1, h2,
      CURRENT_YEAR, MIN_EC_AGE]
  · intro h1 h2
    simp [verdict_status, check_compliance_and_risk, compliance_status, h1, h2]
  · intro h1
    simp [verdict_status, check_compliance_and_risk, compliance_status, h1]

/-- A Leasehold record commencing exactly at the age threshold. -/
def aC3 : ParsedData :=
  { yield_apy := 3
    project_name := "Westwood"
    bedrooms := some "2"
    area_sqft_range := "1000-1500"
    district := some "10"
    tenure_raw := some "99 yrs lease commencing from 2016"
    tenure_type := "Leasehold"
    commence_year := some 2016
    mrt_dist_m := some 300
    cbd_dist_km := some 5
    connectivity_score := 94
    data_hash := "w" }

theorem C3_compliance_decision_table_witness :
    verdict_status (check_compliance_and_risk aC3) = some "APPROVED" :=
  (C3_compliance_decision_table aC3 2016).2.2.2.1 rfl (by decide)

/-- C4: the risk score is 10 minus the three deductions, and the tier map
sends ≤ 5 to C, 6-7 to B and ≥ 8 to A (later, stricter threshold wins). -/
theorem C4_risk_score_and_tier (a : ParsedData) (v : Verdict)
    (h : check_compliance_and_risk a = .ok v) :
    v.score = 10 - (if a.tenure_type = "Leasehold" then 2 else 0)
      - (if a.connectivity_score < 50 then 2 else 0)
      - (if a.yield_apy < 2 then 1 else 0) ∧
    (v.score ≤ 5 → v.risk_tier = "C (High Risk)") ∧
    (v.score = 6 ∨ v.score = 7 → v.risk_tier = "B (Medium Risk)") ∧
    (8 ≤ v.score → v.risk_tier = "A (Low Risk)") := by
  have hv : v.score = risk_score a ∧ v.risk_tier = risk_tier (risk_score a) := by
    rcases hcs : compliance_status a with e | sr <;>
      simp only [check_compliance_and_risk, hcs] at h
    · simp at h
    · simp only [Except.ok.injEq] at h
      subst h
      exact ⟨rfl, rfl⟩
  obtain ⟨hs, ht⟩ := hv
  refine ⟨?_, ?_, ?_, ?_⟩
  · rw [hs]
    by_cases c1 : a.tenure_type = "Leasehold" <;>
      by_cases c2 : a.connectivity_score < 50 <;>
      by_cases c3 : a.yield_apy < 2 <;>
      simp [risk_score, c1, c2, c3]
  · intro hn
    rw [ht]
    rw [hs] at hn
    simp [risk_tier, hn]
  · intro hn
    rw [ht]
    rw [hs] at hn
    rcases hn with h6 | h7
    · have hle : risk_score a ≤ 7 := by omega
      have hgt : ¬ risk_score a ≤ 5 := by omega
      simp [risk_tier, hle, hgt]
    · have hle : risk_score a ≤ 7 := by omega
      have hgt : ¬ risk_score a ≤ 5 := by omega
      simp [risk_tier, hle, hgt]
  · intro hn
    rw [ht]
    rw [hs] at hn
    have h1 : ¬ risk_score a ≤ 7 := by omega
    have h2 : ¬ risk_score a ≤ 5 := by omega
    simp [risk_tier, h1, h2]

/-- A Freehold record with low connectivity: risk score 8, tier A. -/
def aC4 : ParsedData :=
  { yield_apy := 3
    project_name := "Eastbay"
    bedrooms := some "4"
    area_sqft_range := "2000-2500"
    district := some "16"
    tenure_raw := some "Freehold"
    tenure_type := "Freehold/999yr"
    commence_year := some 0
    mrt_dist_m := some 2500
    cbd_dist_km := some 20
    connectivity_score := 40
    data_hash := "e" }

def vC4 : Verdict :=
  { status := "APPROVED", reason := "Unrestricted (Freehold)"
    risk_tier := "A (Low Risk)", score := 8 }

theorem C4_risk_score_and_tier_witness :
    vC4.score = 10 - (if aC4.tenure_type = "Leasehold" then 2 else 0)
      - (if aC4.connectivity_score < 50 then 2 else 0)
      - (if aC4.yield_apy < 2 then 1 else 0) ∧
    (vC4.score ≤ 5 → vC4.risk_tier = "C (High Risk)") ∧
    (vC4.score = 6 ∨ vC4.score = 7 → vC4.risk_tier = "B (Medium Risk)") ∧
    (8 ≤ vC4.score → vC4.risk_tier = "A (Low Risk)") :=
  C4_risk_score_and_tier aC4 vC4 (by with_unfolding_all rfl)

/-! ## Claims about the connectivity scorer -/

/-- Modelled from the spec: "100 minus 0.6 times max(0, (mrt − 200)/50) minus
0.4 times max(0, 2·cbd), clamped to [0,100] and rounded to one decimal
place" — the spec-side formula, for comparison with the source's
`calculate_connectivity_score`. -/
def spec_connectivity_score (m k : ℚ) : ℚ :=
  round1 (max 0 (min 100 (100 - (6 / 10) * max 0 ((m - 200) / 50)
    - (4 / 10) * max 0 (2 * k))))

/-- C5: the scorer equals the spec formula on known distances, is 0 when a
distance is unknown, always lands in [0,100], and gives 100.0 at
(200 m, 0 km). -/
theorem C5_connectivity_spec :
    (∀ k, calculate_connectivity_score none k = 0) ∧
    (∀ m, calculate_connectivity_score m none = 0) ∧
    (∀ m k : ℚ, calculate_connectivity_score (some m) (some k) =
      spec_connectivity_score m k) ∧
    (∀ m k, 0 ≤ calculate_connectivity_score m k ∧
      calculate_connectivity_score m k ≤ 100) ∧
    calculate_connectivity_score (some 200) (some 0) = 100 := by
  refine ⟨?_, ?_, ?_, ?_, ?_⟩
  · intro k
    cases k <;> rfl
  · intro m
    cases m <;> rfl
  · intro m k
    show round1 (max 0 (min 100 (100 - max 0 ((m - 200) / 50) * WEIGHT_MRT
        - max 0 (k * 2) * WEIGHT_CBD))) = spec_connectivity_score m k
    unfold spec_connectivity_score WEIGHT_MRT WEIGHT_CBD
    congr 2
    ring_nf
  · intro m k
    rcases m with _ | m <;> rcases k with _ | k
    · exact ⟨le_refl 0, show (0:ℚ) ≤ 100 by norm_num⟩
    · exact ⟨le_refl 0, show (0:ℚ) ≤ 100 by norm_num⟩
    · exact ⟨le_refl 0, show (0:ℚ) ≤ 100 by norm_num⟩
    · show 0 ≤ round1 (max 0 (min 100 _)) ∧ round1 (max 0 (min 100 _)) ≤ 100
      exact round1_bounds _ (le_max_left _ _) (max_le (by norm_num) (min_le_left _ _))
  · with_unfolding_all rfl

/-- C9: with the other distance fixed, the connectivity score never increases
as either distance increases. -/
theorem C9_score_antitone (m1 m2 k1 k2 : ℚ) :
    (m1 ≤ m2 → calculate_connectivity_score (some m2) (some k1) ≤
      calculate_connectivity_score (some m1) (some k1)) ∧
    (k1 ≤ k2 → calculate_connectivity_score (some m1) (some k2) ≤
      calculate_connectivity_score (some m1) (some k1)) := by
  constructor
  · intro h
    simp only [calculate_connectivity_score]
    apply round1_mono
    have hd : (m1 - 200) / 50 ≤ (m2 - 200) / 50 :=
      div_le_div_of_nonneg_right (by linarith) (by norm_num)
    have hp : max (0:ℚ) ((m1 - 200) / 50) ≤ max 0 ((m2 - 200) / 50) :=
      max_le_max le_rfl hd
    have hw : max (0:ℚ) ((m1 - 200) / 50) * WEIGHT_MRT ≤
        max 0 ((m2 - 200) / 50) * WEIGHT_MRT :=
      mul_le_mul_of_nonneg_right hp (by norm_num [WEIGHT_MRT])
    refine max_le_max le_rfl (min_le_min le_rfl ?_)
    linarith
  · intro h
    simp only [calculate_connectivity_score]
    apply round1_mono
    have hp : max (0:ℚ) (k1 * 2) ≤ max 0 (k2 * 2) :=
      max_le_max le_rfl (by linarith)
    have hw : max (0:ℚ) (k1 * 2) * WEIGHT_CBD ≤ max 0 (k2 * 2) * WEIGHT_CBD :=
      mul_le_mul_of_nonneg_right hp (by norm_num [WEIGHT_CBD])
    refine max_le_max le_rfl (min_le_min le_rfl ?_)
    linarith

theorem C9_score_antitone_witness :
    calculate_connectivity_score (some 300) (some 0) ≤
      calculate_connectivity_score (some 250) (some 0) ∧
    calculate_connectivity_score (some 250) (some 3) ≤
      calculate_connectivity_score (some 250) (some 0) :=
  ⟨(C9_score_antitone 250 300 0 0).1 (by norm_num),
   (C9_score_antitone 250 300 0 3).2 (by norm_num)⟩
